import Mathlib

/-!
Shallow embedding of the power-mode scheduler in `src/main.c` of the
Infineon PSoC4 MSCLP low-power proximity code example.

The embedded parts are:
* the user-configurable and derived timing macros (main.c lines 56-129),
* the `APPLICATION_STATE` finite state machine and the body of the
  scheduler `for (;;)` loop in `main` (lines 313-487), abstracted over the
  per-cycle scan outcome reported by the sensing engine,
* the `DeepSleepCallback` power-transition guard (lines 639-682).

Hardware calls (`Cy_CapSense_ScanAllSlots`, `Cy_CapSense_ConfigureMsclpTimer`,
`Cy_GPIO_SetDrivemode`, ...) are recorded as explicit effect data so that
theorems can speak about which calls a cycle makes.
-/

set_option autoImplicit false
set_option maxRecDepth 100000

namespace MsclpLowPower

/-! ### Configuration macros (main.c lines 56-129) -/

/-- `ACTIVE_MODE_REFRESH_RATE` (line 63): 128 Hz refresh rate in Active mode. -/
def ACTIVE_MODE_REFRESH_RATE : Nat := 128

/-- `ALR_MODE_REFRESH_RATE` (line 66): 32 Hz refresh rate in ALR mode. -/
def ALR_MODE_REFRESH_RATE : Nat := 32

/-- `ACTIVE_MODE_TIMEOUT_SEC` (line 69). -/
def ACTIVE_MODE_TIMEOUT_SEC : Nat := 5

/-- `ALR_MODE_TIMEOUT_SEC` (line 72). -/
def ALR_MODE_TIMEOUT_SEC : Nat := 5

/-- `ACTIVE_MODE_FRAME_SCAN_TIME` (line 75), microseconds. -/
def ACTIVE_MODE_FRAME_SCAN_TIME : Nat := 2891

/-- `ACTIVE_MODE_PROCESS_TIME` (line 78), microseconds. -/
def ACTIVE_MODE_PROCESS_TIME : Nat := 23

/-- `ALR_MODE_FRAME_SCAN_TIME` (line 81), microseconds. -/
def ALR_MODE_FRAME_SCAN_TIME : Nat := 2891

/-- `ALR_MODE_PROCESS_TIME` (line 84), microseconds. -/
def ALR_MODE_PROCESS_TIME : Nat := 23

/-- `ILO_FREQ` (line 105): 40 kHz internal low-speed oscillator. -/
def ILO_FREQ : Nat := 40000

/-- `TIME_IN_US` (line 106): one second in microseconds. -/
def TIME_IN_US : Nat := 1000000

/-- `MINIMUM_TIMER` (line 108): `TIME_IN_US / ILO_FREQ`, the minimum
representable wake-timer tick. C unsigned division truncates, as `Nat`
division does. -/
def MINIMUM_TIMER : Nat := TIME_IN_US / ILO_FREQ

/-- Wake-timer reload computation shared by the `ACTIVE_MODE_TIMER` and
`ALR_MODE_TIMER` macros (lines 111-123): if the refresh period
`TIME_IN_US / refreshRate` strictly exceeds the scan+process latency, the
reload is their difference, otherwise the fallback branch yields
`MINIMUM_TIMER`. The guard of the fallback branch is a malformed `#elif`
in the source; the clamp to `MINIMUM_TIMER` is the evident intent of that
branch, and with the configured constants only the first branch is taken. -/
def wakeTimerReload (refreshRate scanTime processTime : Nat) : Nat :=
  if scanTime + processTime < TIME_IN_US / refreshRate then
    TIME_IN_US / refreshRate - (scanTime + processTime)
  else
    MINIMUM_TIMER

/-- `ACTIVE_MODE_TIMER` (lines 111-116). -/
def ACTIVE_MODE_TIMER : Nat :=
  wakeTimerReload ACTIVE_MODE_REFRESH_RATE ACTIVE_MODE_FRAME_SCAN_TIME
    ACTIVE_MODE_PROCESS_TIME

/-- `ALR_MODE_TIMER` (lines 118-123). -/
def ALR_MODE_TIMER : Nat :=
  wakeTimerReload ALR_MODE_REFRESH_RATE ALR_MODE_FRAME_SCAN_TIME
    ALR_MODE_PROCESS_TIME

/-- `ACTIVE_MODE_TIMEOUT` (line 125): `ACTIVE_MODE_REFRESH_RATE * ACTIVE_MODE_TIMEOUT_SEC`. -/
def ACTIVE_MODE_TIMEOUT : Nat := ACTIVE_MODE_REFRESH_RATE * ACTIVE_MODE_TIMEOUT_SEC

/-- `ALR_MODE_TIMEOUT` (line 127): `ALR_MODE_REFRESH_RATE * ALR_MODE_TIMEOUT_SEC`. -/
def ALR_MODE_TIMEOUT : Nat := ALR_MODE_REFRESH_RATE * ALR_MODE_TIMEOUT_SEC

/-- `TIMEOUT_RESET` (line 129). -/
def TIMEOUT_RESET : Nat := 0

/-- `appStateTimeoutCount` is a C `uint32_t` (line 270); increments wrap
modulo `2^32`. -/
def UINT32_MOD : Nat := 4294967296

/-! ### The application state machine (main.c lines 139-147, 267-487) -/

/-- `APPLICATION_STATE` enum (lines 139-147). The C encodings are
`ACTIVE_MODE = 0x01`, `ALR_MODE = 0x02`, `WOT_MODE = 0x03`; see
`APPLICATION_STATE.toRaw`. -/
inductive APPLICATION_STATE : Type
  | ACTIVE_MODE
  | ALR_MODE
  | WOT_MODE
  deriving DecidableEq, Repr

/-- Numeric encoding of `APPLICATION_STATE` from the enum declaration
(lines 141-145). -/
def APPLICATION_STATE.toRaw : APPLICATION_STATE → Nat
  | .ACTIVE_MODE => 1
  | .ALR_MODE => 2
  | .WOT_MODE => 3

/-- The mutable scheduler state of `main`: the global `appState` (line 177)
and the local `appStateTimeoutCount` (line 270). -/
structure SchedState : Type where
  appState : APPLICATION_STATE
  appStateTimeoutCount : Nat
  deriving DecidableEq, Repr

/-- The per-cycle result of scanning and processing, as queried at
lines 359 (`Cy_CapSense_IsAnyWidgetActive`) and 450
(`Cy_CapSense_IsAnyLpWidgetActive`). Transient: consumed once per cycle. -/
structure ScanOutcome : Type where
  anyWidgetActive : Bool
  anyLpWidgetActive : Bool
  deriving DecidableEq, Repr

/-- Which scan trigger a cycle issues: `Cy_CapSense_ScanAllSlots`
(lines 339, 386) or `Cy_CapSense_ScanAllLpSlots` (line 436). -/
inductive ScanKind : Type
  | allSlots
  | lpSlots
  deriving DecidableEq, Repr

/-- Which processing call a cycle issues: `Cy_CapSense_ProcessAllWidgets`
(lines 356, 404) or `Cy_CapSense_ProcessWidget(CY_CAPSENSE_LOWPOWER0_WDGT_ID, ...)`
(line 448). -/
inductive ProcessKind : Type
  | allWidgets
  | lpWidget
  deriving DecidableEq, Repr

/-- Hardware calls recorded during one cycle of the scheduler loop:
the scan triggers, the processing calls, and the arguments of every
`Cy_CapSense_ConfigureMsclpTimer` call made in that cycle. -/
structure CycleEffects : Type where
  scans : List ScanKind
  processes : List ProcessKind
  timerConfigs : List Nat
  deriving DecidableEq, Repr

/-- One iteration of the scheduler `for (;;)` loop (lines 332-487),
abstracted over the scan outcome the sensing engine reports for this
cycle. Each arm is a direct translation of the corresponding `case`:

* `ACTIVE_MODE` (lines 337-380): active widget resets the counter
  (line 361); otherwise the counter increments (line 365) and on
  `ACTIVE_MODE_TIMEOUT < appStateTimeoutCount` (line 367) the mode becomes
  `ALR_MODE`, the counter resets and the timer is reconfigured to
  `ALR_MODE_TIMER` (lines 369-373).
* `ALR_MODE` (lines 384-429): active widget transitions to `ACTIVE_MODE`
  with counter reset and `ACTIVE_MODE_TIMER` (lines 409-413); otherwise
  increment, and on `ALR_MODE_TIMEOUT < appStateTimeoutCount` (line 419)
  the mode becomes `WOT_MODE` with counter reset and no timer call
  (lines 421-422).
* `WOT_MODE` (lines 433-467): one low-power scan and one low-power widget
  processing call; an active low-power widget transitions to `ACTIVE_MODE`
  with `ACTIVE_MODE_TIMER` (lines 452-456), otherwise to `ALR_MODE` with
  `ALR_MODE_TIMER` (lines 461-465); the counter resets either way. -/
def step (s : SchedState) (o : ScanOutcome) : SchedState × CycleEffects :=
  match s.appState with
  | .ACTIVE_MODE =>
      if o.anyWidgetActive then
        (⟨.ACTIVE_MODE, TIMEOUT_RESET⟩, ⟨[.allSlots], [.allWidgets], []⟩)
      else
        let c := (s.appStateTimeoutCount + 1) % UINT32_MOD
        if ACTIVE_MODE_TIMEOUT < c then
          (⟨.ALR_MODE, TIMEOUT_RESET⟩, ⟨[.allSlots], [.allWidgets], [ALR_MODE_TIMER]⟩)
        else
          (⟨.ACTIVE_MODE, c⟩, ⟨[.allSlots], [.allWidgets], []⟩)
  | .ALR_MODE =>
      if o.anyWidgetActive then
        (⟨.ACTIVE_MODE, TIMEOUT_RESET⟩, ⟨[.allSlots], [.allWidgets], [ACTIVE_MODE_TIMER]⟩)
      else
        let c := (s.appStateTimeoutCount + 1) % UINT32_MOD
        if ALR_MODE_TIMEOUT < c then
          (⟨.WOT_MODE, TIMEOUT_RESET⟩, ⟨[.allSlots], [.allWidgets], []⟩)
        else
          (⟨.ALR_MODE, c⟩, ⟨[.allSlots], [.allWidgets], []⟩)
  | .WOT_MODE =>
      if o.anyLpWidgetActive then
        (⟨.ACTIVE_MODE, TIMEOUT_RESET⟩, ⟨[.lpSlots], [.lpWidget], [ACTIVE_MODE_TIMER]⟩)
      else
        (⟨.ALR_MODE, TIMEOUT_RESET⟩, ⟨[.lpSlots], [.lpWidget], [ALR_MODE_TIMER]⟩)

/-- The `switch (appState)` dispatch (lines 334, 470-473) on the raw
numeric value of `appState`: the three enum encodings dispatch to the
matching handler; any other value falls into the `default` arm, which is
`CY_ASSERT(CY_ASSERT_FAILED)` — a fatal assertion, modelled as `none`. -/
def stepRaw (rawState : Nat) (count : Nat) (o : ScanOutcome) :
    Option (SchedState × CycleEffects) :=
  if rawState = APPLICATION_STATE.ACTIVE_MODE.toRaw then
    some (step ⟨.ACTIVE_MODE, count⟩ o)
  else if rawState = APPLICATION_STATE.ALR_MODE.toRaw then
    some (step ⟨.ALR_MODE, count⟩ o)
  else if rawState = APPLICATION_STATE.WOT_MODE.toRaw then
    some (step ⟨.WOT_MODE, count⟩ o)
  else
    none

/-- Initial scheduler state (lines 314-315): `appState = ACTIVE_MODE`,
`appStateTimeoutCount = 0`. -/
def initState : SchedState := ⟨.ACTIVE_MODE, 0⟩

/-- The scheduler state after the loop has consumed the given sequence of
per-cycle scan outcomes, starting from `initState`. -/
def reach (inputs : List ScanOutcome) : SchedState :=
  inputs.foldl (fun s o => (step s o).1) initState

/-- Whether the sample of a cycle "reports activity" in the sense of the
spec, for the given mode: Active and LowRefresh cycles consult
`Cy_CapSense_IsAnyWidgetActive` (lines 359, 407), WakeOnTouch cycles
consult `Cy_CapSense_IsAnyLpWidgetActive` (line 450). -/
def reportsActivity (m : APPLICATION_STATE) (o : ScanOutcome) : Bool :=
  match m with
  | .WOT_MODE => o.anyLpWidgetActive
  | _ => o.anyWidgetActive

/-- The counter update each cycle actually performs, written out the way
the amended form of the spec sentence describes it: activity resets the
counter; an inactive Active or LowRefresh cycle increments it by one
except that crossing the mode timeout resets it together with the mode
transition; an inactive WakeOnTouch cycle resets it. Stated over the
counter values the loop can reach, where the `uint32_t` wrap is
invisible. -/
def counterUpdateSpec (m : APPLICATION_STATE) (count : Nat) (o : ScanOutcome) : Nat :=
  if reportsActivity m o then 0
  else
    match m with
    | .ACTIVE_MODE => if ACTIVE_MODE_TIMEOUT < count + 1 then 0 else count + 1
    | .ALR_MODE => if ALR_MODE_TIMEOUT < count + 1 then 0 else count + 1
    | .WOT_MODE => 0

/-! ### Deep-sleep transition guard (main.c lines 639-682) -/

/-- `cy_en_syspm_status_t`, restricted to the two values the callback
uses: `CY_SYSPM_SUCCESS` and `CY_SYSPM_FAIL` (the initial value of
`retValue`, line 642). -/
inductive cy_en_syspm_status_t : Type
  | CY_SYSPM_SUCCESS
  | CY_SYSPM_FAIL
  deriving DecidableEq, Repr

/-- `CY_SYSPM_CHECK_READY` phase code. The numeric values of
`cy_en_syspm_callback_mode_t` come from the platform power-management
header, not this repository; only their distinctness matters here. -/
def CY_SYSPM_CHECK_READY : Nat := 1

/-- `CY_SYSPM_CHECK_FAIL` phase code (platform header value). -/
def CY_SYSPM_CHECK_FAIL : Nat := 2

/-- `CY_SYSPM_BEFORE_TRANSITION` phase code (platform header value). -/
def CY_SYSPM_BEFORE_TRANSITION : Nat := 4

/-- `CY_SYSPM_AFTER_TRANSITION` phase code (platform header value). -/
def CY_SYSPM_AFTER_TRANSITION : Nat := 8

/-- `CY_GPIO_DM_ANALOG` pin drive mode (platform header value; only
distinctness from `CY_GPIO_DM_STRONG_IN_OFF` matters here). -/
def CY_GPIO_DM_ANALOG : Nat := 0

/-- `CY_GPIO_DM_STRONG_IN_OFF` pin drive mode (platform header value). -/
def CY_GPIO_DM_STRONG_IN_OFF : Nat := 6

/-- `DeepSleepCallback` (lines 639-682), threading the drive-mode
configuration of the serial-LED SPI MOSI pin explicitly: the switch on
`mode` returns `CY_SYSPM_SUCCESS` in every arm; `CY_SYSPM_BEFORE_TRANSITION`
sets the pin drive mode to `CY_GPIO_DM_ANALOG` (line 660) and
`CY_SYSPM_AFTER_TRANSITION` sets it to `CY_GPIO_DM_STRONG_IN_OFF`
(line 670); the other arms leave the pin untouched. Built with
`ENABLE_SPI_SERIAL_LED = 1` (line 59), so the pin writes are compiled in. -/
def DeepSleepCallback (mode : Nat) (mosiDriveMode : Nat) :
    cy_en_syspm_status_t × Nat :=
  if mode = CY_SYSPM_CHECK_READY then
    (.CY_SYSPM_SUCCESS, mosiDriveMode)
  else if mode = CY_SYSPM_CHECK_FAIL then
    (.CY_SYSPM_SUCCESS, mosiDriveMode)
  else if mode = CY_SYSPM_BEFORE_TRANSITION then
    (.CY_SYSPM_SUCCESS, CY_GPIO_DM_ANALOG)
  else if mode = CY_SYSPM_AFTER_TRANSITION then
    (.CY_SYSPM_SUCCESS, CY_GPIO_DM_STRONG_IN_OFF)
  else
    (.CY_SYSPM_SUCCESS, mosiDriveMode)

/-! ### Loop invariant helpers -/

/-- Invariant preserved by the scheduler loop: the counter never exceeds
the mode timeout while between cycles, and is zero in WakeOnTouch mode. -/
def Inv (s : SchedState) : Prop :=
  (s.appState = .ACTIVE_MODE → s.appStateTimeoutCount ≤ ACTIVE_MODE_TIMEOUT) ∧
  (s.appState = .ALR_MODE → s.appStateTimeoutCount ≤ ALR_MODE_TIMEOUT) ∧
  (s.appState = .WOT_MODE → s.appStateTimeoutCount = 0)

theorem inv_step (s : SchedState) (o : ScanOutcome) (h : Inv s) :
    Inv ((step s o).1) := by
  obtain ⟨hA, hL, hW⟩ := h
  obtain ⟨m, c⟩ := s
  cases m with
  | ACTIVE_MODE =>
      have hc : c ≤ ACTIVE_MODE_TIMEOUT := hA rfl
      simp only [step] at *
      cases ha : o.anyWidgetActive with
      | true => simp [ha, Inv, TIMEOUT_RESET]
      | false =>
          have hmod : (c + 1) % UINT32_MOD = c + 1 := by
            apply Nat.mod_eq_of_lt
            have : c + 1 ≤ ACTIVE_MODE_TIMEOUT + 1 := by omega
            calc c + 1 ≤ ACTIVE_MODE_TIMEOUT + 1 := this
              _ < UINT32_MOD := by decide
          by_cases ht : ACTIVE_MODE_TIMEOUT < (c + 1) % UINT32_MOD
          · simp [ha, ht, Inv, TIMEOUT_RESET]
          · simp only [ha, Bool.false_eq_true, if_false, ht]
            refine ⟨fun _ => ?_, fun h2 => by simp at h2, fun h2 => by simp at h2⟩
            simpa [hmod] using Nat.not_lt.mp ht
  | ALR_MODE =>
      have hc : c ≤ ALR_MODE_TIMEOUT := hL rfl
      simp only [step] at *
      cases ha : o.anyWidgetActive with
      | true => simp [ha, Inv, TIMEOUT_RESET]
      | false =>
          have hmod : (c + 1) % UINT32_MOD = c + 1 := by
            apply Nat.mod_eq_of_lt
            have : c + 1 ≤ ALR_MODE_TIMEOUT + 1 := by omega
            calc c + 1 ≤ ALR_MODE_TIMEOUT + 1 := this
              _ < UINT32_MOD := by decide
          by_cases ht : ALR_MODE_TIMEOUT < (c + 1) % UINT32_MOD
          · simp [ha, ht, Inv, TIMEOUT_RESET]
          · simp only [ha, Bool.false_eq_true, if_false, ht]
            refine ⟨fun h2 => by simp at h2, fun _ => ?_, fun h2 => by simp at h2⟩
            simpa [hmod] using Nat.not_lt.mp ht
  | WOT_MODE =>
      simp only [step]
      cases ha : o.anyLpWidgetActive with
      | true => simp [ha, Inv, TIMEOUT_RESET]
      | false => simp [ha, Inv, TIMEOUT_RESET]

theorem step_count_eq_spec (s : SchedState) (o : ScanOutcome) (h : Inv s) :
    ((step s o).1).appStateTimeoutCount =
      counterUpdateSpec s.appState s.appStateTimeoutCount o := by
  obtain ⟨hA, hL, hW⟩ := h
  obtain ⟨m, c⟩ := s
  cases m with
  | ACTIVE_MODE =>
      have hc : c ≤ ACTIVE_MODE_TIMEOUT := hA rfl
      have hlt : ACTIVE_MODE_TIMEOUT + 1 < UINT32_MOD := by decide
      have hmod : (c + 1) % UINT32_MOD = c + 1 := Nat.mod_eq_of_lt (by omega)
      cases ha : o.anyWidgetActive with
      | true => simp [step, ha, counterUpdateSpec, reportsActivity, TIMEOUT_RESET]
      | false =>
          simp only [step, ha, Bool.false_eq_true, if_false, hmod,
            counterUpdateSpec, reportsActivity]
          split <;> rfl
  | ALR_MODE =>
      have hc : c ≤ ALR_MODE_TIMEOUT := hL rfl
      have hlt : ALR_MODE_TIMEOUT + 1 < UINT32_MOD := by decide
      have hmod : (c + 1) % UINT32_MOD = c + 1 := Nat.mod_eq_of_lt (by omega)
      cases ha : o.anyWidgetActive with
      | true => simp [step, ha, counterUpdateSpec, reportsActivity, TIMEOUT_RESET]
      | false =>
          simp only [step, ha, Bool.false_eq_true, if_false, hmod,
            counterUpdateSpec, reportsActivity]
          split <;> rfl
  | WOT_MODE =>
      cases ha : o.anyLpWidgetActive with
      | true => simp [step, ha, counterUpdateSpec, reportsActivity, TIMEOUT_RESET]
      | false => simp [step, ha, counterUpdateSpec, reportsActivity, TIMEOUT_RESET]

theorem count_zero_of_mode_change (s : SchedState) (o : ScanOutcome)
    (h : (step s o).1.appState ≠ s.appState) :
    (step s o).1.appStateTimeoutCount = 0 := by
  obtain ⟨m, c⟩ := s
  cases m with
  | ACTIVE_MODE =>
      cases ha : o.anyWidgetActive with
      | true => simp [step, ha] at h
      | false =>
          by_cases ht : ACTIVE_MODE_TIMEOUT < (c + 1) % UINT32_MOD
          · simp [step, ha, ht, TIMEOUT_RESET]
          · simp [step, ha, ht] at h
  | ALR_MODE =>
      cases ha : o.anyWidgetActive with
      | true => simp [step, ha, TIMEOUT_RESET]
      | false =>
          by_cases ht : ALR_MODE_TIMEOUT < (c + 1) % UINT32_MOD
          · simp [step, ha, ht, TIMEOUT_RESET]
          · simp [step, ha, ht] at h
  | WOT_MODE =>
      cases ha : o.anyLpWidgetActive with
      | true => simp [step, ha, TIMEOUT_RESET]
      | false => simp [step, ha, TIMEOUT_RESET]

theorem inv_reach (inputs : List ScanOutcome) : Inv (reach inputs) := by
  have base : Inv initState := by
    refine ⟨fun _ => ?_, fun _ => ?_, fun h => ?_⟩
    · exact Nat.zero_le _
    · exact Nat.zero_le _
    · rfl
  rw [reach]
  induction inputs using List.reverseRecOn with
  | nil => exact base
  | append_singleton xs x ih =>
      rw [List.foldl_append, List.foldl_cons, List.foldl_nil]
      exact inv_step _ x ih

/-! ### Claim theorems -/

/-- C1, counterexample: the loop that has consumed `ACTIVE_MODE_TIMEOUT`
inactive samples sits in Active mode with the counter at
`ACTIVE_MODE_TIMEOUT`; the next inactive cycle does not increment the
counter by exactly 1 — it resets it to 0 (together with the transition to
ALR mode), refuting the claim that every no-activity cycle increments the
counter by exactly 1. -/
theorem C1_counterexample :
    reach (List.replicate ACTIVE_MODE_TIMEOUT ⟨false, false⟩) =
      ⟨.ACTIVE_MODE, ACTIVE_MODE_TIMEOUT⟩ ∧
    ((step (reach (List.replicate ACTIVE_MODE_TIMEOUT ⟨false, false⟩))
        ⟨false, false⟩).1).appStateTimeoutCount = 0 ∧
    ((step (reach (List.replicate ACTIVE_MODE_TIMEOUT ⟨false, false⟩))
        ⟨false, false⟩).1).appStateTimeoutCount ≠ ACTIVE_MODE_TIMEOUT + 1 := by
  refine ⟨by decide, by decide, by decide⟩

/-- C1, amended: on every cycle of the scheduler loop, a sample reporting
activity resets the inactivity counter to 0; a sample reporting no
activity increments it by exactly 1 in Active and LowRefresh modes except
when the incremented value crosses the mode timeout, in which case the
counter is reset to 0 together with the mode transition; and in
WakeOnTouch mode the counter is reset to 0 on every cycle. -/
theorem C1_counter_update (inputs : List ScanOutcome) (o : ScanOutcome) :
    ((step (reach inputs) o).1).appStateTimeoutCount =
      counterUpdateSpec (reach inputs).appState
        (reach inputs).appStateTimeoutCount o :=
  step_count_eq_spec (reach inputs) o (inv_reach inputs)

/-- C2, counterexample: in Active mode with the counter at
`ACTIVE_MODE_TIMEOUT - 1` (a state the loop reaches after that many
inactive samples), an inactive cycle does not transition: the mode stays
Active, the counter becomes `ACTIVE_MODE_TIMEOUT`, and no timer call is
made — refuting the claimed transition at counter `ActiveTimeout − 1`. -/
theorem C2_counterexample :
    reach (List.replicate (ACTIVE_MODE_TIMEOUT - 1) ⟨false, false⟩) =
      ⟨.ACTIVE_MODE, ACTIVE_MODE_TIMEOUT - 1⟩ ∧
    (step ⟨.ACTIVE_MODE, ACTIVE_MODE_TIMEOUT - 1⟩ ⟨false, false⟩).1 =
      ⟨.ACTIVE_MODE, ACTIVE_MODE_TIMEOUT⟩ ∧
    (step ⟨.ACTIVE_MODE, ACTIVE_MODE_TIMEOUT - 1⟩ ⟨false, false⟩).1.appState ≠
      .ALR_MODE ∧
    (step ⟨.ACTIVE_MODE, ACTIVE_MODE_TIMEOUT - 1⟩ ⟨false, false⟩).2.timerConfigs
      = [] := by
  refine ⟨by decide, by decide, by decide, by decide⟩

/-- C2, amended: the Active-mode transition fires when the counter
*after* the increment exceeds `ACTIVE_MODE_TIMEOUT`; so the transition
scenario starts at counter `ACTIVE_MODE_TIMEOUT` (not
`ACTIVE_MODE_TIMEOUT − 1`): from there an inactive cycle moves to ALR
mode with the counter reset to 0 and the wake timer reconfigured to
`ALR_MODE_TIMER`. -/
theorem C2_active_timeout_transition :
    (∀ o : ScanOutcome, o.anyWidgetActive = false →
      step ⟨.ACTIVE_MODE, ACTIVE_MODE_TIMEOUT⟩ o =
        (⟨.ALR_MODE, TIMEOUT_RESET⟩,
          ⟨[.allSlots], [.allWidgets], [ALR_MODE_TIMER]⟩)) ∧
    (∀ (c : Nat) (o : ScanOutcome), o.anyWidgetActive = false →
      ((step ⟨.ACTIVE_MODE, c⟩ o).1.appState = .ALR_MODE ↔
        ACTIVE_MODE_TIMEOUT < (c + 1) % UINT32_MOD)) := by
  constructor
  · intro o h
    obtain ⟨a, lp⟩ := o
    simp only at h
    subst h
    cases lp <;> decide
  · intro c o h
    by_cases ht : ACTIVE_MODE_TIMEOUT < (c + 1) % UINT32_MOD
    · simp [step, h, ht]
    · simp [step, h, ht]

/-- C2, witness for `C2_active_timeout_transition`. -/
theorem C2_witness :
    step ⟨.ACTIVE_MODE, ACTIVE_MODE_TIMEOUT⟩ ⟨false, false⟩ =
      (⟨.ALR_MODE, TIMEOUT_RESET⟩,
        ⟨[.allSlots], [.allWidgets], [ALR_MODE_TIMER]⟩) :=
  C2_active_timeout_transition.1 ⟨false, false⟩ rfl

/-- C3: a WakeOnTouch cycle issues exactly one scan (the low-power slot
scan) and one processing call (the low-power widget); it always exits to
Active (with `ACTIVE_MODE_TIMER` configured) when a low-power widget is
active, and to ALR mode (with `ALR_MODE_TIMER` configured) otherwise; the
resulting mode is never WakeOnTouch. -/
theorem C3_wot_single_step (c : Nat) (o : ScanOutcome) :
    (step ⟨.WOT_MODE, c⟩ o).2.scans = [.lpSlots] ∧
    (step ⟨.WOT_MODE, c⟩ o).2.processes = [.lpWidget] ∧
    (o.anyLpWidgetActive = true →
      step ⟨.WOT_MODE, c⟩ o =
        (⟨.ACTIVE_MODE, TIMEOUT_RESET⟩,
          ⟨[.lpSlots], [.lpWidget], [ACTIVE_MODE_TIMER]⟩)) ∧
    (o.anyLpWidgetActive = false →
      step ⟨.WOT_MODE, c⟩ o =
        (⟨.ALR_MODE, TIMEOUT_RESET⟩,
          ⟨[.lpSlots], [.lpWidget], [ALR_MODE_TIMER]⟩)) ∧
    ((step ⟨.WOT_MODE, c⟩ o).1.appState = .ACTIVE_MODE ∨
      (step ⟨.WOT_MODE, c⟩ o).1.appState = .ALR_MODE) := by
  cases ha : o.anyLpWidgetActive <;> simp [step, ha]

/-- C3, witness for `C3_wot_single_step`. -/
theorem C3_witness :
    step ⟨.WOT_MODE, 0⟩ ⟨false, true⟩ =
      (⟨.ACTIVE_MODE, TIMEOUT_RESET⟩,
        ⟨[.lpSlots], [.lpWidget], [ACTIVE_MODE_TIMER]⟩) :=
  (C3_wot_single_step 0 ⟨false, true⟩).2.2.1 rfl

/-- C4: the wake-timer reload of each mode equals
`max(MINIMUM_TIMER, period − (scan + process))` for the configured
constants; numerically `ACTIVE_MODE_TIMER = 7812 − 2914 = 4898`; and
whenever the scan+process latency reaches or exceeds the refresh period,
the reload clamps to `MINIMUM_TIMER = TIME_IN_US / ILO_FREQ = 25`, which
is positive. -/
theorem C4_timer_policy :
    ACTIVE_MODE_TIMER =
      max MINIMUM_TIMER (TIME_IN_US / ACTIVE_MODE_REFRESH_RATE -
        (ACTIVE_MODE_FRAME_SCAN_TIME + ACTIVE_MODE_PROCESS_TIME)) ∧
    ALR_MODE_TIMER =
      max MINIMUM_TIMER (TIME_IN_US / ALR_MODE_REFRESH_RATE -
        (ALR_MODE_FRAME_SCAN_TIME + ALR_MODE_PROCESS_TIME)) ∧
    TIME_IN_US / ACTIVE_MODE_REFRESH_RATE = 7812 ∧
    ACTIVE_MODE_FRAME_SCAN_TIME + ACTIVE_MODE_PROCESS_TIME = 2914 ∧
    ACTIVE_MODE_TIMER = 7812 - 2914 ∧
    ACTIVE_MODE_TIMER = 4898 ∧
    MINIMUM_TIMER = TIME_IN_US / ILO_FREQ ∧
    0 < MINIMUM_TIMER ∧
    (∀ refreshRate scanTime processTime : Nat,
      TIME_IN_US / refreshRate ≤ scanTime + processTime →
      wakeTimerReload refreshRate scanTime processTime = MINIMUM_TIMER) := by
  refine ⟨by decide, by decide, by decide, by decide, by decide, by decide,
    by decide, by decide, ?_⟩
  intro refreshRate scanTime processTime h
  simp [wakeTimerReload, Nat.not_lt.mpr h]

/-- C4, witness for `C4_timer_policy`: a 200 kHz refresh rate makes the
period (5 µs) smaller than the latency, so the reload clamps. -/
theorem C4_witness : wakeTimerReload 200000 2891 23 = MINIMUM_TIMER :=
  C4_timer_policy.2.2.2.2.2.2.2.2 200000 2891 23 (by decide)

/-- C5: each of the four named transition phases of `DeepSleepCallback`
returns `CY_SYSPM_SUCCESS`; in particular the readiness-check phase
always reports ready. -/
theorem C5_phases_success :
    (∀ pin : Nat,
      (DeepSleepCallback CY_SYSPM_CHECK_READY pin).1 = .CY_SYSPM_SUCCESS) ∧
    (∀ pin : Nat,
      (DeepSleepCallback CY_SYSPM_CHECK_FAIL pin).1 = .CY_SYSPM_SUCCESS) ∧
    (∀ pin : Nat,
      (DeepSleepCallback CY_SYSPM_BEFORE_TRANSITION pin).1 = .CY_SYSPM_SUCCESS) ∧
    (∀ pin : Nat,
      (DeepSleepCallback CY_SYSPM_AFTER_TRANSITION pin).1 = .CY_SYSPM_SUCCESS) :=
  ⟨fun _ => rfl, fun _ => rfl, fun _ => rfl, fun _ => rfl⟩

/-- C6: when an inactive ALR-mode cycle crosses `ALR_MODE_TIMEOUT`, the
scheduler moves to WakeOnTouch with the counter reset and makes no
`Cy_CapSense_ConfigureMsclpTimer` call; every other mode transition (one
whose target is not WakeOnTouch) makes exactly one timer call, with the
reload value of the target mode. -/
theorem C6_alr_to_wot_no_timer :
    (∀ (c : Nat) (o : ScanOutcome), o.anyWidgetActive = false →
      ALR_MODE_TIMEOUT < (c + 1) % UINT32_MOD →
      step ⟨.ALR_MODE, c⟩ o =
        (⟨.WOT_MODE, TIMEOUT_RESET⟩, ⟨[.allSlots], [.allWidgets], []⟩)) ∧
    (∀ (s : SchedState) (o : ScanOutcome),
      (step s o).1.appState ≠ s.appState →
      (step s o).1.appState ≠ .WOT_MODE →
      (step s o).2.timerConfigs =
        [if (step s o).1.appState = .ACTIVE_MODE then ACTIVE_MODE_TIMER
         else ALR_MODE_TIMER]) := by
  constructor
  · intro c o h ht
    simp [step, h, ht]
  · intro s o hchange hnotwot
    obtain ⟨m, c⟩ := s
    cases m with
    | ACTIVE_MODE =>
        cases ha : o.anyWidgetActive with
        | true => simp [step, ha] at hchange
        | false =>
            by_cases ht : ACTIVE_MODE_TIMEOUT < (c + 1) % UINT32_MOD
            · simp [step, ha, ht]
            · simp [step, ha, ht] at hchange
    | ALR_MODE =>
        cases ha : o.anyWidgetActive with
        | true => simp [step, ha]
        | false =>
            by_cases ht : ALR_MODE_TIMEOUT < (c + 1) % UINT32_MOD
            · simp [step, ha, ht] at hnotwot
            · simp [step, ha, ht] at hchange
    | WOT_MODE =>
        cases ha : o.anyLpWidgetActive with
        | true => simp [step, ha]
        | false => simp [step, ha]

/-- C6, witness for `C6_alr_to_wot_no_timer`. -/
theorem C6_witness :
    step ⟨.ALR_MODE, ALR_MODE_TIMEOUT⟩ ⟨false, false⟩ =
      (⟨.WOT_MODE, TIMEOUT_RESET⟩, ⟨[.allSlots], [.allWidgets], []⟩) :=
  C6_alr_to_wot_no_timer.1 ALR_MODE_TIMEOUT ⟨false, false⟩ rfl (by decide)

/-- C7: dispatching the scheduler on a raw `appState` value outside the
three enum encodings (1, 2, 3) reaches the `default` arm, a fatal
`CY_ASSERT` — modelled as `none`; no unknown value is treated as a
valid mode. -/
theorem C7_unknown_mode_fatal (rawState count : Nat) (o : ScanOutcome)
    (h1 : rawState ≠ APPLICATION_STATE.ACTIVE_MODE.toRaw)
    (h2 : rawState ≠ APPLICATION_STATE.ALR_MODE.toRaw)
    (h3 : rawState ≠ APPLICATION_STATE.WOT_MODE.toRaw) :
    stepRaw rawState count o = none := by
  simp [stepRaw, h1, h2, h3]

/-- C7, witness for `C7_unknown_mode_fatal`: raw mode value 0 is fatal. -/
theorem C7_witness : stepRaw 0 0 ⟨false, false⟩ = none :=
  C7_unknown_mode_fatal 0 0 ⟨false, false⟩ (by decide) (by decide) (by decide)

/-- C8, counterexample: starting with the SPI MOSI pin in
`CY_GPIO_DM_ANALOG`, running the PreTransition arm and then the
PostTransition arm of `DeepSleepCallback` leaves the pin in
`CY_GPIO_DM_STRONG_IN_OFF`, not in its starting configuration — so the
Pre/Post pair is not an identity on every starting drive mode. -/
theorem C8_counterexample :
    (DeepSleepCallback CY_SYSPM_AFTER_TRANSITION
        (DeepSleepCallback CY_SYSPM_BEFORE_TRANSITION CY_GPIO_DM_ANALOG).2).2 ≠
      CY_GPIO_DM_ANALOG := by
  decide

/-- C8, amended: PostTransition restores the pin to the fixed active
drive configuration `CY_GPIO_DM_STRONG_IN_OFF` rather than to the saved
previous configuration, so PreTransition followed by PostTransition maps
every starting drive mode to `CY_GPIO_DM_STRONG_IN_OFF`, and is an
identity exactly on that starting configuration. -/
theorem C8_pre_post_fixed_restore (d : Nat) :
    (DeepSleepCallback CY_SYSPM_AFTER_TRANSITION
        (DeepSleepCallback CY_SYSPM_BEFORE_TRANSITION d).2).2 =
      CY_GPIO_DM_STRONG_IN_OFF ∧
    ((DeepSleepCallback CY_SYSPM_AFTER_TRANSITION
        (DeepSleepCallback CY_SYSPM_BEFORE_TRANSITION d).2).2 = d ↔
      d = CY_GPIO_DM_STRONG_IN_OFF) :=
  ⟨rfl, eq_comm⟩

/-- C9: in every state the scheduler loop reaches from
`(ACTIVE_MODE, 0)`, the counter is at most `ACTIVE_MODE_TIMEOUT + 1` in
Active mode and at most `ALR_MODE_TIMEOUT + 1` in ALR mode, and every
cycle that changes the mode leaves the counter at 0. -/
theorem C9_reachable_counter_bounds (inputs : List ScanOutcome) :
    ((reach inputs).appState = .ACTIVE_MODE →
      (reach inputs).appStateTimeoutCount ≤ ACTIVE_MODE_TIMEOUT + 1) ∧
    ((reach inputs).appState = .ALR_MODE →
      (reach inputs).appStateTimeoutCount ≤ ALR_MODE_TIMEOUT + 1) ∧
    (∀ o : ScanOutcome,
      (step (reach inputs) o).1.appState ≠ (reach inputs).appState →
      (step (reach inputs) o).1.appStateTimeoutCount = 0) := by
  obtain ⟨hA, hL, _⟩ := inv_reach inputs
  exact ⟨fun hm => Nat.le_succ_of_le (hA hm),
    fun hm => Nat.le_succ_of_le (hL hm),
    fun o hchange => count_zero_of_mode_change (reach inputs) o hchange⟩

/-- C9, witness for `C9_reachable_counter_bounds` at the empty input
sequence. -/
theorem C9_witness :
    (reach []).appStateTimeoutCount ≤ ACTIVE_MODE_TIMEOUT + 1 :=
  (C9_reachable_counter_bounds []).1 rfl

/-- C10: `DeepSleepCallback` is total over its phase argument and returns
`CY_SYSPM_SUCCESS` for every phase value, the ones outside the four named
phases (the `default` arm) included — it never vetoes a sleep
transition. -/
theorem C10_callback_total_success (mode pin : Nat) :
    (DeepSleepCallback mode pin).1 = .CY_SYSPM_SUCCESS := by
  unfold DeepSleepCallback
  split_ifs <;> rfl

end MsclpLowPower
